import Mathlib

/-!
Verification development for TFBMiner (src/TFBMiner.py).

The source program is shallowly embedded: the remote KEGG lookup layer is
modelled as an explicit environment of pure functions (a deterministic fetch
collaborator), pandas data frames become lists of records indexed by row
number, and the program's functions are translated into executable Lean
definitions that follow the source line by line.  Exceptions of the source
(`HTTPError`, `IndexError`) are modelled with `Option`; uncaught exceptions
that are unreachable from the call sites of interest are noted in comments.
-/

set_option maxRecDepth 10000

/-! ### External record fetch (src/TFBMiner.py, `get_data`, lines 35-58)

`fetch n` is the outcome of the `n`-th `urlopen` attempt for the fixed search
term (`none` models an `HTTPError`).  The second component of the result lists
the `time.sleep` delays performed, in order. -/

def get_data (fetch : Nat → Option String) : Option String × List Nat :=
  match fetch 0 with
  | some search => (some search, [])
  | none =>
    -- Tries again after 10s if access is blocked (line 51).
    match fetch 1 with
    | some search => (some search, [10])
    | none => (none, [10])

/-! ### Genome annotation rows

A row of a parsed feature-table genome (`select_genome` returns a data frame
with columns `locus_tag`, `strand`, `seq_type`, `name`; after
`reset_index(drop=True)` its index is the row number). -/

structure GRow where
  locus_tag : String
  strand : String
  seq_type : String
  name : String
deriving DecidableEq, Repr

/-- Row access by position; every position used by the program originates from
the table's own index, so the default row is never consulted at call sites. -/
def rowAt (genome : List GRow) (i : Nat) : GRow :=
  genome.getD i ⟨"", "", "", ""⟩

/-- Python's `s.split("(")[0]` (used to strip parenthesised suffixes from KEGG
gene descriptors): the characters before the first `(`. -/
def paren_base (s : String) : String :=
  ⟨s.data.takeWhile (fun c => !(c == '('))⟩

/-- Splitting a character list at every occurrence of a separator character;
empty fields are kept, as Python's `str.split(sep)` keeps them. -/
def split_char (sep : Char) : List Char → List (List Char)
  | [] => [[]]
  | c :: cs =>
    if c == sep then [] :: split_char sep cs
    else
      match split_char sep cs with
      | [] => [[c]]
      | g :: gs => (c :: g) :: gs

/-- Python's `s.split(" ")` (always at least one field). -/
def split_sp (s : String) : List String :=
  (split_char ' ' s.data).map (fun cs => ⟨cs⟩)

example : split_sp "a bc" = ["a", "bc"] := by decide
example : split_sp "" = [""] := by decide
example : paren_base "b0001(thrA)" = "b0001" := by decide

/-- Case-sensitive substring test; `pandas.Series.str.contains` with the
pattern `"regulator|repressor|activator"` is this test for each alternative. -/
def contains_str (s pat : String) : Bool :=
  decide (pat.data <:+: s.data)

example : contains_str "a DNA-binding regulator protein" "regulator" = true := by decide
example : contains_str "hypothetical protein" "regulator" = false := by decide

/-! ### Operon clustering scan
(src/TFBMiner.py, `predict_biosensors.identify_regulons`, lines 409-452)

`scan_genes` is the inner `for y in range(len(all_genes))` loop (lines
421-439) for one starting gene.  State threaded through the loop: the operon
being grown, `avoid_repeats`, and `gene_positions` (an association list).  A
failed `locus_tag` lookup is the `.tolist()[0]` `IndexError` of line 425; it
is caught only by the outer `except IndexError` of line 451, so it aborts the
whole scan -- modelled by returning `none` for the operon while keeping the
state mutations made so far. -/

def scan_genes (genome : List GRow) (all_genes : List String) (num_starting : Nat)
    (starting_position : Nat) (starting_orientation : String) :
    List Nat → List String → List Nat → List (String × Nat) →
    Option (List String) × List Nat × List (String × Nat)
  | [], operon, avoid, gps => (some operon, avoid, gps)
  | y :: ys, operon, avoid, gps =>
    if y ∈ avoid then
      scan_genes genome all_genes num_starting starting_position starting_orientation
        ys operon avoid gps
    else
      let gene := all_genes.getD y ""
      let gene_ := paren_base gene
      match genome.findIdx? (fun r => r.locus_tag == gene_) with
      | none => (none, avoid, gps)
      | some position =>
        let gene_orientation := (rowAt genome position).strand
        -- Line 431: genes nearby the starting gene on the same strand join the operon.
        if (((starting_position : Int) - (position : Int)).natAbs < 30)
            ∧ (starting_orientation = gene_orientation) then
          scan_genes genome all_genes num_starting starting_position starting_orientation
            ys (operon ++ [gene])
            (if (y : Int) ≤ (num_starting : Int) - 1 then avoid ++ [y] else avoid)
            (if (gps.lookup gene).isSome then gps else gps ++ [(gene, position)])
        else
          scan_genes genome all_genes num_starting starting_position starting_orientation
            ys operon avoid gps

/-! ### Regulator identification (src/TFBMiner.py, `identify_regulator`, lines 489-577)

The function is translated as a composition of named pieces that mirror its
successive blocks: the reference-position/candidate-pool computation (lines
499-526), the closest-candidate selection (lines 529-540), and the
intervening-row scoring walk (lines 542-570).  The source returns a triple
whose components are independently `None`-able; this is kept as a triple of
`Option`s. -/

/-- A row counts as regulator-like when its `name` annotation matches the
regex `"regulator|repressor|activator"` (line 505): a case-sensitive
substring match of one of the three alternatives. -/
def reg_like (r : GRow) : Bool :=
  contains_str r.name "regulator" || contains_str r.name "repressor" ||
    contains_str r.name "activator"

/-- Lines 499-526: the reference (start) position and the candidate pool of
regulator row indices, `none` when the orientation is neither `"+"` nor `"-"`
(the `else` of line 522).  The pool keeps the data frame's ascending row
order, as `regulators.index.to_list()` does. -/
def regulator_candidates (genome : List GRow) (operon_orientation : String)
    (positions : List Nat) : Option (Nat × List Nat) :=
  if operon_orientation = "+" then
    let start_position := (positions.min?).getD 0
    let start_seqtype := (rowAt genome start_position).seq_type
    let reg_positions := (List.range genome.length).filter (fun i =>
      reg_like (rowAt genome i) && (rowAt genome i).strand == "-" &&
        (rowAt genome i).seq_type == start_seqtype)
    some (start_position, reg_positions.filter (fun reg_position => reg_position ≤ start_position))
  else if operon_orientation = "-" then
    let start_position := (positions.max?).getD 0
    let start_seqtype := (rowAt genome start_position).seq_type
    let reg_positions := (List.range genome.length).filter (fun i =>
      reg_like (rowAt genome i) && (rowAt genome i).strand == "+" &&
        (rowAt genome i).seq_type == start_seqtype)
    some (start_position, reg_positions.filter (fun reg_position => start_position ≤ reg_position))
  else none

/-- Absolute row-index distance, `abs(arr - start_position)` of line 533. -/
def reg_distance (start_position p : Nat) : Nat :=
  ((p : Int) - (start_position : Int)).natAbs

/-- Lines 532-538: `np.amin` of the distances followed by the first index at
which the minimum is attained (`np.where(distances == min_distance)[0][0]`),
mapped back into `reg_positions`. -/
def closest_reg_position (reg_positions : List Nat) (start_position : Nat) : Nat :=
  let distances := reg_positions.map (reg_distance start_position)
  let min_distance := (distances.min?).getD 0
  reg_positions.getD ((distances.findIdx? (fun d => d == min_distance)).getD 0) 0

/-- Lines 542-570: the scoring walk over the rows between the regulator and
the operon reference.  `none` is the unguarded `else: score = None` of line
569 (reachable only when the regulator position coincides with the
reference). -/
def intervening_score (genome : List GRow) (operon_orientation : String)
    (start_position regulator_position min_distance : Nat) : Option Int :=
  if reg_distance start_position regulator_position = 1 then
    some 0
  else if start_position < regulator_position then
    some ((List.range' 1 (min_distance - 1)).foldl (fun score n =>
      if (rowAt genome (start_position + n)).strand ≠ operon_orientation then score - 2
      else score - 1) 0)
  else if regulator_position < start_position then
    some ((List.range' 1 (min_distance - 1)).foldl (fun score n =>
      if (rowAt genome (regulator_position + n)).strand ≠ operon_orientation then score - 2
      else score - 1) 0)
  else none

/-- `identify_regulator` (lines 489-577).  `gene_positions` is the
association list built by `identify_regulons`; the source's
`gene_positions[gene]` lookup cannot miss at its call sites (every operon
member is recorded before the call), so a default of 0 stands in for the
uncaught `KeyError`. -/
def identify_regulator (genome : List GRow) (operon : List String)
    (operon_orientation : String) (gene_positions : List (String × Nat)) :
    Option String × Option Int × Option String :=
  let positions := operon.map (fun gene => ((gene_positions.lookup gene).getD 0))
  match regulator_candidates genome operon_orientation positions with
  | none => (none, none, none)
  | some (start_position, reg_positions) =>
    if reg_positions.length > 0 then
      let min_distance := ((reg_positions.map (reg_distance start_position)).min?).getD 0
      let regulator_position := closest_reg_position reg_positions start_position
      let closest_regulator := (rowAt genome regulator_position).locus_tag
      let annot := (rowAt genome regulator_position).name
      (some closest_regulator,
        intervening_score genome operon_orientation start_position regulator_position min_distance,
        some annot)
    else (none, none, none)

/-! ### Chain discovery (src/TFBMiner.py, `form_chains`, lines 162-249)

The KEGG collaborator is an environment of pure functions: `reaction_details`
yields a reaction's `(enzymes, reactants, products)` or `none` when the fetch
or parse fails (the `(None,)*3` returns of lines 117/159), and
`identify_reactions` yields the reactions a compound participates in (an
empty list on failure, lines 76/104).  The source's `reactions_info` /
`products_info` caches memoize exactly these pure functions within one
worker, so they are semantically transparent and not threaded through the
embedding. -/

structure Env where
  reaction_details : String → Option (List String × List String × List String)
  identify_reactions : String → List String

/-- The IDs of unnecessary byproducts, such as H20 and NADH (lines 171-176). -/
def excluded_compounds : List String :=
  ["C00035", "C00040", "C00025", "C00044", "C00007",
   "C00005", "C00006", "C00045", "C00001", "C00010",
   "C00024", "C00002", "C00003", "C00008", "C00009",
   "C00011", "C00012", "C00013", "C00014", "C00019"]

/-- `form_chains.link_reactions` (lines 178-244).  The mutable closure
accumulator `all_chains` is threaded explicitly; the recursion over the
products' subsequent reactions (lines 228-244) is the nested `foldl`. -/
def link_reactions (env : Env) (reaction compound : String) (recursion_depth : Nat)
    (prior_chains : Option (List (List String))) (prior_enzymes : Option (List String))
    (limit : Nat) (all_chains : List (List String)) : List (List String) :=
  match env.reaction_details reaction with
  | none => all_chains
  | some (enzymes, reactants, products) =>
    if compound ∈ reactants then
      -- Lines 205-218: form (depth 1) or extend (depth > 1) chains.
      let chains_ : Option (List (List String)) :=
        if recursion_depth = 1 ∧ prior_enzymes.isSome then
          some (((prior_enzymes.getD []).filter (fun enzyme_1 => ! enzyme_1.data.contains '-')).flatMap
            (fun enzyme_1 => (enzymes.filter (fun enzyme_2 => ! enzyme_2.data.contains '-')).map
              (fun enzyme_2 => [enzyme_1, enzyme_2])))
        else if 1 < recursion_depth ∧ prior_chains.isSome then
          some ((enzymes.filter (fun e => ! e.data.contains '-')).flatMap
            (fun e => (prior_chains.getD []).map (fun chain => chain ++ [e])))
        else none
      -- Lines 221-224: chains at the current depth are appended to the run's accumulator.
      let all_chains := all_chains ++ chains_.getD []
      products.foldl (fun acc product =>
        if product ∈ excluded_compounds then acc
        else
          let reactions_2 := env.identify_reactions product
          -- Line 237: hub-metabolite overload guard.
          if reactions_2.length < 100 then
            reactions_2.foldl (fun acc2 reaction_2 =>
              if h1 : recursion_depth + 1 = 1 then
                link_reactions env reaction_2 product (recursion_depth + 1)
                  none (some enzymes) limit acc2
              else if h2 : 1 < recursion_depth + 1 ∧ recursion_depth + 1 < limit then
                link_reactions env reaction_2 product (recursion_depth + 1)
                  chains_ none limit acc2
              else acc2) acc
          else acc) all_chains
    else all_chains
termination_by (limit + 2) - recursion_depth
decreasing_by
  · omega
  · omega

/-- `form_chains` (lines 246-249): one `link_reactions` run per initial reaction. -/
def form_chains (env : Env) (reactions : List String) (inducer : String)
    (max_chain_length : Nat) : List (List String) :=
  reactions.foldl (fun all_chains reaction =>
    link_reactions env reaction inducer 0 none none max_chain_length all_chains) []

/-- The merge loop of `optimize_chain_identifications` (lines 286-290 and
296-299): chains of one partition's result are appended unless already
present. -/
def dedup_append (chains_all result : List (List String)) : List (List String) :=
  result.foldl (fun acc chain => if chain ∈ acc then acc else acc ++ [chain]) chains_all

/-- `np.array_split` helper: emits `k` further parts of `l`, the first `r` of
size `q + 1` and the rest of size `q`. -/
def array_split_go {α : Type} (l : List α) (q : Nat) : Nat → Nat → List (List α)
  | 0, _ => []
  | k + 1, r =>
    if r > 0 then l.take (q + 1) :: array_split_go (l.drop (q + 1)) q k (r - 1)
    else l.take q :: array_split_go (l.drop q) q k 0

/-- `np.array_split(l, n)` (line 281): `n` contiguous near-equal parts; the
first `l.length % n` parts get one extra element. -/
def array_split {α : Type} (l : List α) (n : Nat) : List (List α) :=
  array_split_go l (l.length / n) n (l.length % n)

/-- `optimize_chain_identifications` (lines 252-306).  `cores` is
`multiprocessing.cpu_count()`.  Workers only concatenate their partition's
`form_chains` results, so the process pool is modelled by mapping
`form_chains` over the partitions and merging in submission order, which is
how the futures are awaited.  The `.error` case is the `sys.exit` of line
306. -/
def optimize_chain_identifications (env : Env) (cores : Nat) (inducer : String)
    (max_chain_length : Nat) : Except String (List (List String)) :=
  let initial_reactions := env.identify_reactions inducer
  let num_initial_nodes := initial_reactions.length
  let processes : Option Nat :=
    if num_initial_nodes ≥ cores then some cores
    else if num_initial_nodes ≥ 2 then some 2
    else if num_initial_nodes = 1 then some 1
    else none
  let chains_all :=
    match processes with
    | some p =>
      if p ≥ 2 then
        (array_split initial_reactions p).foldl
          (fun chains_all data =>
            dedup_append chains_all (form_chains env data inducer max_chain_length)) []
      else
        dedup_append [] (form_chains env initial_reactions inducer max_chain_length)
    | none => []
  if chains_all.length > 0 then .ok chains_all
  else .error ("No chains were identified for \x27" ++ inducer ++ "\x27")

/-- Terminal behaviour of one chain-mode run: whether the program exited with
a message, and whether the interactive single-gene fallback offer (the
`input` call of line 677) was made. -/
structure RunOutcome where
  exit_msg : Option String
  offered_fallback : Bool
deriving DecidableEq, Repr

/-- Chain-mode control flow of `main` (lines 840-845) around
`optimize_chain_identifications` and `process_all_chains` (lines 659-680).
The per-chain processing (network joins and prediction) is abstracted as
`total_biosensors_of`, the total count accumulated by lines 667-671; the
interactive fallback offer happens exactly on the zero-biosensors completion
path (line 677), while a `sys.exit` inside `optimize_chain_identifications`
terminates the program before `process_all_chains` can run. -/
def run_chain_mode (env : Env) (cores : Nat) (inducer : String) (max_chain_length : Nat)
    (total_biosensors_of : List (List String) → Nat) : RunOutcome :=
  match optimize_chain_identifications env cores inducer max_chain_length with
  | .error msg => ⟨some msg, false⟩
  | .ok chains =>
    if total_biosensors_of chains > 0 then ⟨none, false⟩
    else ⟨none, true⟩

/-! ### Single-gene-operon mode fan-out
(src/TFBMiner.py, `predict_single_gene_operon_biosensors`, lines 701-724) -/

/-- `identify_single_metabolizers` (lines 683-698).  On a failed
`reaction_details` fetch the source would evaluate `compound in None` and
raise an uncaught `TypeError`; that branch is unreachable in the
environments considered here and is modelled as a skip. -/
def identify_single_metabolizers (env : Env) (reactions : List String)
    (compound : String) : List String :=
  reactions.foldl (fun enzymes reaction =>
    match env.reaction_details reaction with
    | some (enzymes_, reactants, _products) =>
      if compound ∈ reactants then
        let metabolizers := enzymes_.filter (fun enzyme_ => ! enzyme_.data.contains '-')
        if metabolizers.length > 0 then enzymes ++ metabolizers else enzymes
      else enzymes
    | none => enzymes) []

/-- A Python call outcome: either a value, or an uncaught `TypeError`. -/
inductive PyOutcome (α : Type) where
  | ok (val : α)
  | typeError
deriving DecidableEq, Repr

/-- The work fan-out of `predict_single_gene_operon_biosensors` (lines
706-722), producing the per-partition enzyme lists that line 724 flattens.
The `processes == 1` arm (line 720) is
`enzymes = identify_single_metabolizers(reactions[0])`: it passes the single
reaction id where the reaction list is expected and omits the required
`compound` argument, so in Python the call raises `TypeError` before the
stage function can run. -/
def single_gene_metabolizer_fanout (env : Env) (reactions : List String)
    (compound : String) (cores : Nat) : PyOutcome (List (List String)) :=
  let num_reactions := reactions.length
  let processes : Option Nat :=
    if num_reactions ≥ cores then some cores
    else if num_reactions ≥ 2 then some 2
    else if num_reactions = 1 then some 1
    else none
  match processes with
  | some p =>
    if p ≥ 2 then
      .ok ((array_split reactions p).map
        (fun data => identify_single_metabolizers env data compound))
    else .typeError
  | none => .ok []

/-! ### Operon clustering, outer loop
(src/TFBMiner.py, `predict_biosensors.identify_regulons`, lines 381-452) -/

/-- A predicted biosensor (the `Biosensor` named tuple, lines 358-368).
`genes` is the `genes_` dict (enzyme ordinal → gene descriptor string) and
`gene_positions` the gene → row-index dict, both as association lists. -/
structure Biosensor where
  operon : List String
  regulator : String
  regulator_score : Int
  regulator_annot : String
  organism_code : String
  genes : List (Nat × String)
  gene_positions : List (String × Nat)
deriving DecidableEq, Repr

/-- The `for x in range(len(starting_genes))` loop of lines 409-452.  State
threaded across iterations: `avoid_repeats`, `gene_positions`, and the
biosensor accumulator.  A failed starting-gene lookup, or an aborted
`scan_genes` scan (both the source's `IndexError`, caught at line 451),
discards the current operon but keeps the state mutations already made and
continues with the next starting gene. -/
def regulons_loop (genome : List GRow) (starting_genes all_genes : List String)
    (organism_code : String) (genes_ : List (Nat × String)) :
    List Nat → List Nat → List (String × Nat) → List Biosensor →
    List Nat × List (String × Nat) × List Biosensor
  | [], avoid, gps, bios => (avoid, gps, bios)
  | x :: xs, avoid, gps, bios =>
    let starting_gene := starting_genes.getD x ""
    let starting_gene_ := paren_base starting_gene
    let avoid := avoid ++ [x]
    match genome.findIdx? (fun r => r.locus_tag == starting_gene_) with
    | none => regulons_loop genome starting_genes all_genes organism_code genes_ xs avoid gps bios
    | some starting_position =>
      let starting_orientation := (rowAt genome starting_position).strand
      match scan_genes genome all_genes starting_genes.length starting_position
          starting_orientation (List.range all_genes.length) [starting_gene] avoid gps with
      | (none, avoid', gps') =>
        regulons_loop genome starting_genes all_genes organism_code genes_ xs avoid' gps' bios
      | (some operon, avoid', gps') =>
        -- Lines 443-449: operons with more than one member go to regulator identification.
        if operon.length > 1 then
          let gps'' := if (gps'.lookup starting_gene).isSome then gps'
            else gps' ++ [(starting_gene, starting_position)]
          match identify_regulator genome operon starting_orientation gps'' with
          | (some regulator, some score, some annot) =>
            regulons_loop genome starting_genes all_genes organism_code genes_ xs avoid' gps''
              (bios ++ [⟨operon, regulator, score, annot, organism_code, genes_, gps''⟩])
          | _ =>
            regulons_loop genome starting_genes all_genes organism_code genes_ xs avoid' gps'' bios
        else
          regulons_loop genome starting_genes all_genes organism_code genes_ xs avoid' gps' bios

/-- `identify_regulons` (lines 381-452) for one data-frame row, given the
organism's genome; `gene_cols` are the row's gene-list columns
(`row[1] .. row[num_cols-1]`). -/
def identify_regulons (genome : List GRow) (organism_code : String)
    (gene_cols : List String) : List Biosensor :=
  let starting_genes := split_sp (gene_cols.headD "")
  let all_genes := (gene_cols.map (fun s => split_sp s)).flatten
  let genes_ := gene_cols.enum.map (fun p => (p.1 + 1, p.2))
  (regulons_loop genome starting_genes all_genes organism_code genes_
    (List.range starting_genes.length) [] [] []).2.2

/-! ### Concrete annotation tables used to exercise the definitions -/

/-- A 31-row table: the starting gene `s1` at row 0 and the gene `g2` at row
index distance exactly 30, all on the forward strand. -/
def genome_w2 : List GRow :=
  ⟨"s1", "+", "c", "x"⟩ :: (List.replicate 29 ⟨"f", "+", "c", "x"⟩ ++ [⟨"g2", "+", "c", "x"⟩])

/-- A 101-row table: a regulator-like reverse-strand row at index 90, an
operon gene `g1` at index 100, and forward-strand filler elsewhere (the nine
rows 91-99 all match a forward operon's orientation). -/
def genome_w3 : List GRow :=
  List.replicate 90 ⟨"f", "+", "c", "x"⟩ ++
    (⟨"regX", "-", "c", "a regulator"⟩ ::
      (List.replicate 9 ⟨"f", "+", "c", "x"⟩ ++ [⟨"g1", "+", "c", "enzyme"⟩]))

/-- A 2-row table holding `ga` and `gc` but not `gb`, all forward strand. -/
def genome_w7 : List GRow :=
  [⟨"ga", "+", "c", "x"⟩, ⟨"gc", "+", "c", "x"⟩]

/-- A two-reaction KEGG environment: the inducer `C00042` is consumed by
`rn:R00001` (enzyme `EC:1.1.1.1`), whose product `C00100` is consumed by
`rn:R00002` (enzymes `EC:2.2.2.2` and the wildcard `EC:3.-.-.-`), whose own
product is the excluded cofactor `C00001`. -/
def env_w1 : Env :=
  ⟨fun reaction =>
      if reaction == "rn:R00001" then some (["EC:1.1.1.1"], ["C00042"], ["C00100"])
      else if reaction == "rn:R00002" then
        some (["EC:2.2.2.2", "EC:3.-.-.-"], ["C00100"], ["C00001"])
      else none,
    fun compound =>
      if compound == "C00042" then ["rn:R00001"]
      else if compound == "C00100" then ["rn:R00002"]
      else []⟩

/-! ## Theorems -/

/-- C8: a remote fetch that fails transiently is retried exactly once after a
fixed delay of 10 time units; if the retry also fails the record is treated
as absent (`none`), and on a first-attempt success the text is returned with
no retry and no delay.  The last conjunct states that only attempts 0 and 1
are ever consulted (exactly one retry). -/
theorem get_data_retry_once (fetch : Nat → Option String) :
    (∀ s, fetch 0 = some s → get_data fetch = (some s, [])) ∧
    (fetch 0 = none → get_data fetch = (fetch 1, [10])) ∧
    (∀ g : Nat → Option String, fetch 0 = g 0 → fetch 1 = g 1 →
      get_data fetch = get_data g) := by
  refine ⟨?_, ?_, ?_⟩
  · intro s h
    simp [get_data, h]
  · intro h
    simp only [get_data, h]
    cases h1 : fetch 1 <;> simp
  · intro g h0 h1
    simp only [get_data, h0, h1]

theorem get_data_retry_once_witness :
    ((fun _ => (none : Option String)) 0 = none) ∧
    get_data (fun _ => (none : Option String)) = ((fun _ => (none : Option String)) 1, [10]) :=
  ⟨rfl, (get_data_retry_once (fun _ => none)).2.1 rfl⟩

/-- C5 (code bug): when single-gene-operon mode has exactly one initial
reaction, the source calls `identify_single_metabolizers(reactions[0])`
(line 720), dropping the reaction list and the required `compound` argument,
so the stage is an uncaught `TypeError` rather than a single invocation of
the stage function on the whole input with the same arguments. -/
theorem single_gene_fanout_one_reaction_type_error :
    single_gene_metabolizer_fanout
      ⟨fun _ => some (["EC:1.1.1.1"], ["C00999"], ["C00042"]), fun _ => ["rn:R00001"]⟩
      ["rn:R00001"] "C00999" 4 = .typeError := by
  rfl

/-- C6 (counterexample): with an inducer that has zero reactions, chain
discovery yields zero chains and the program exits fatally with the
no-chains message -- but the interactive single-gene fallback offer is NOT
made on this path (the offer of line 677 belongs to the zero-biosensors
completion path of `process_all_chains`). -/
theorem run_chain_mode_zero_chains_no_offer :
    (run_chain_mode ⟨fun _ => none, fun _ => []⟩ 4 "C00042" 3 (fun _ => 0)).exit_msg =
        some ("No chains were identified for \x27C00042\x27") ∧
    ¬ ((run_chain_mode ⟨fun _ => none, fun _ => []⟩ 4 "C00042" 3 (fun _ => 0)).offered_fallback
        = true) := by
  exact ⟨rfl, by decide⟩

theorem ite_ok_error_eq {ε α : Type} {c : Prop} [Decidable c] {a : α} {e m : ε}
    (h : (if c then Except.ok a else Except.error e) = Except.error m) : m = e := by
  split at h
  · exact absurd h (by simp)
  · injection h with h'
    exact h'.symm

/-- C6 (amended): whenever chain discovery produces zero chains the program
terminates fatally, the message states that no chains were identified for
the inducer, and no interactive fallback offer accompanies this exit; the
offer is instead made exactly when chains were processed but zero biosensors
resulted. -/
theorem zero_chains_exit_without_offer (env : Env) (cores : Nat) (inducer : String)
    (max_chain_length : Nat) (total_biosensors_of : List (List String) → Nat) (msg : String)
    (h : optimize_chain_identifications env cores inducer max_chain_length = .error msg) :
    msg = "No chains were identified for \x27" ++ inducer ++ "\x27" ∧
    run_chain_mode env cores inducer max_chain_length total_biosensors_of =
      ⟨some msg, false⟩ ∧
    (∀ chains, optimize_chain_identifications env cores inducer max_chain_length = .ok chains →
      (run_chain_mode env cores inducer max_chain_length total_biosensors_of).offered_fallback =
        decide (total_biosensors_of chains = 0)) := by
  refine ⟨?_, ?_, ?_⟩
  · simp only [optimize_chain_identifications] at h
    exact ite_ok_error_eq h
  · unfold run_chain_mode
    rw [h]
  · intro chains hok
    rw [hok] at h
    exact absurd h (by simp)

theorem zero_chains_exit_without_offer_witness :
    optimize_chain_identifications ⟨fun _ => none, fun _ => []⟩ 4 "C00042" 3 =
        .error ("No chains were identified for \x27C00042\x27") ∧
    run_chain_mode ⟨fun _ => none, fun _ => []⟩ 4 "C00042" 3 (fun _ => 0) =
        ⟨some ("No chains were identified for \x27C00042\x27"), false⟩ := by
  have h : optimize_chain_identifications ⟨fun _ => none, fun _ => []⟩ 4 "C00042" 3 =
      .error ("No chains were identified for \x27C00042\x27") := rfl
  exact ⟨h, (zero_chains_exit_without_offer _ 4 "C00042" 3 (fun _ => 0) _ h).2.1⟩

/-- C2: during multi-gene operon clustering, an examined chain gene (scan
index `y`, located in the annotation table at row `position`) is appended to
the starting gene's operon if and only if the absolute difference of the row
indices is strictly less than 30 and the strands are equal; in particular a
gene at row-index distance exactly 30 is never appended. -/
theorem scan_genes_join_iff (genome : List GRow) (all_genes : List String)
    (num_starting starting_position : Nat) (starting_orientation : String)
    (y : Nat) (operon : List String) (avoid : List Nat) (gps : List (String × Nat))
    (hy : y ∉ avoid) (position : Nat)
    (hfind : genome.findIdx? (fun r => r.locus_tag == paren_base (all_genes.getD y "")) =
      some position) :
    (scan_genes genome all_genes num_starting starting_position starting_orientation
        [y] operon avoid gps).1 = some (operon ++ [all_genes.getD y ""]) ↔
      (((starting_position : Int) - (position : Int)).natAbs < 30 ∧
        starting_orientation = (rowAt genome position).strand) := by
  simp only [scan_genes, if_neg hy, hfind]
  by_cases hc : (((starting_position : Int) - (position : Int)).natAbs < 30 ∧
      starting_orientation = (rowAt genome position).strand)
  · rw [if_pos hc]
    simp [scan_genes, hc]
  · rw [if_neg hc]
    simp [scan_genes, hc]

theorem scan_genes_join_iff_witness :
    ((1 : Nat) ∉ ([0] : List Nat)) ∧
    genome_w2.findIdx? (fun r => r.locus_tag ==
      paren_base ((["s1", "g2"] : List String).getD 1 "")) = some 30 ∧
    ((scan_genes genome_w2 ["s1", "g2"] 1 0 "+" [1] ["s1"] [0] []).1 =
        some (["s1"] ++ [(["s1", "g2"] : List String).getD 1 ""]) ↔
      (((0 : Int) - (30 : Int)).natAbs < 30 ∧ "+" = (rowAt genome_w2 30).strand)) :=
  ⟨by decide, by decide,
    scan_genes_join_iff genome_w2 ["s1", "g2"] 1 0 "+" 1 ["s1"] [0] []
      (by decide) 30 (by decide)⟩

/-- C7 (counterexample): with the annotation table `genome_w7` (which holds
`ga` at row 0 and `gc` at row 1 on the same strand, but not `gb`), scanning
the chain genes `["ga", "gb", "gc"]` for starting gene `ga` aborts at the
missing `gb`: the remaining gene `gc` is never examined, no operon is formed
for `ga`, and the whole clustering emits no biosensor -- so a lookup miss
does not merely skip the missing gene. -/
theorem lookup_miss_aborts_starting_gene :
    (scan_genes genome_w7 ["ga", "gb", "gc"] 1 0 "+" [0, 1, 2] ["ga"] [0] []).1 = none ∧
    identify_regulons genome_w7 "org" ["ga", "gb gc"] = [] :=
  ⟨by decide, by decide⟩

/-- C7 (amended): a lookup miss for a non-starting chain gene aborts
clustering for the current starting gene -- the remaining chain genes are not
examined and no operon is emitted for it -- while the state mutations already
made are retained and processing continues, never fatally, with the next
starting gene. -/
theorem regulons_loop_miss_continues (genome : List GRow)
    (starting_genes all_genes : List String) (organism_code : String)
    (genes_ : List (Nat × String)) (x : Nat) (xs : List Nat) (avoid : List Nat)
    (gps : List (String × Nat)) (bios : List Biosensor) (starting_position : Nat)
    (hfind : genome.findIdx? (fun r => r.locus_tag ==
      paren_base (starting_genes.getD x "")) = some starting_position)
    (avoid' : List Nat) (gps' : List (String × Nat))
    (habort : scan_genes genome all_genes starting_genes.length starting_position
        ((rowAt genome starting_position).strand) (List.range all_genes.length)
        [starting_genes.getD x ""] (avoid ++ [x]) gps = (none, avoid', gps')) :
    regulons_loop genome starting_genes all_genes organism_code genes_
        (x :: xs) avoid gps bios =
      regulons_loop genome starting_genes all_genes organism_code genes_
        xs avoid' gps' bios := by
  simp only [regulons_loop, hfind, habort]

theorem regulons_loop_miss_continues_witness :
    genome_w7.findIdx? (fun r => r.locus_tag ==
      paren_base ((["ga"] : List String).getD 0 "")) = some 0 ∧
    scan_genes genome_w7 ["ga", "gb", "gc"] (["ga"] : List String).length 0
        ((rowAt genome_w7 0).strand) (List.range (["ga", "gb", "gc"] : List String).length)
        [(["ga"] : List String).getD 0 ""] (([] : List Nat) ++ [0]) [] = (none, [0], []) ∧
    regulons_loop genome_w7 ["ga"] ["ga", "gb", "gc"] "org" [(1, "ga"), (2, "gb gc")]
        (0 :: []) [] [] [] =
      regulons_loop genome_w7 ["ga"] ["ga", "gb", "gc"] "org" [(1, "ga"), (2, "gb gc")]
        [] [0] [] [] :=
  ⟨by decide, by decide,
    regulons_loop_miss_continues genome_w7 ["ga"] ["ga", "gb", "gc"] "org"
      [(1, "ga"), (2, "gb gc")] 0 [] [] [] [] 0 (by decide) [0] [] (by decide)⟩

/-! ### Facts about the regulator selection -/

theorem min?_getD_spec (l : List Nat) (hne : l ≠ []) :
    (l.min?).getD 0 ∈ l ∧ ∀ b ∈ l, (l.min?).getD 0 ≤ b := by
  cases hmin : l.min? with
  | none => exact absurd (List.min?_eq_none_iff.mp hmin) hne
  | some m =>
    have h := (List.min?_eq_some_iff (fun a => Nat.le_refl a) (fun a b => by omega)
      (fun a b c => by omega)).mp hmin
    simpa using h

theorem max?_getD_spec (l : List Nat) (hne : l ≠ []) :
    (l.max?).getD 0 ∈ l ∧ ∀ b ∈ l, b ≤ (l.max?).getD 0 := by
  cases hmax : l.max? with
  | none =>
    rw [List.max?_eq_none_iff] at hmax
    exact absurd hmax hne
  | some m =>
    have h := (List.max?_eq_some_iff (fun a => Nat.le_refl a) (fun a b => by omega)
      (fun a b c => by omega)).mp hmax
    simpa using h


/-- The first index of a nonempty list of naturals at which its minimum is
attained: existence, membership, minimality, and first-occurrence. -/
theorem first_min_index_spec (l : List Nat) (hne : l ≠ []) :
    ∃ j, j < l.length ∧ l.findIdx? (fun d => d == (l.min?).getD 0) = some j ∧
      l.getD j 0 = (l.min?).getD 0 ∧
      (∀ i, i < j → l.getD i 0 ≠ (l.min?).getD 0) := by
  obtain ⟨hmem, -⟩ := min?_getD_spec l hne
  have hex : ∃ d ∈ l, (d == (l.min?).getD 0) = true := ⟨_, hmem, by simp⟩
  have hlt : l.findIdx (fun d => d == (l.min?).getD 0) < l.length :=
    List.findIdx_lt_length_of_exists hex
  refine ⟨l.findIdx (fun d => d == (l.min?).getD 0), hlt,
    List.findIdx?_eq_some_iff_findIdx_eq.mpr ⟨hlt, rfl⟩, ?_, ?_⟩
  · have h := @List.findIdx_getElem _ (fun d => d == (l.min?).getD 0) l hlt
    rw [List.getD_eq_getElem?_getD, List.getElem?_eq_getElem hlt]
    simpa using h
  · intro i hij
    have hi : i < l.length := lt_trans hij hlt
    have h : (l[i] == (l.min?).getD 0) = false :=
      List.not_of_lt_findIdx hij
    rw [List.getD_eq_getElem?_getD, List.getElem?_eq_getElem hi]
    simpa using h

/-- Characterisation of the candidate selected by lines 532-538: it is a pool
entry, its distance to the reference attains the pool's minimum distance,
and every strictly earlier pool entry misses the minimum (the
`np.where(...)[0][0]` choice of the first minimising index). -/
theorem closest_reg_position_spec (reg_positions : List Nat) (start_position : Nat)
    (hne : reg_positions ≠ []) :
    ∃ j, j < reg_positions.length ∧
      closest_reg_position reg_positions start_position = reg_positions.getD j 0 ∧
      reg_distance start_position (reg_positions.getD j 0) =
        ((reg_positions.map (reg_distance start_position)).min?).getD 0 ∧
      (∀ q ∈ reg_positions,
        reg_distance start_position (reg_positions.getD j 0) ≤ reg_distance start_position q) ∧
      (∀ i, i < j →
        reg_distance start_position (reg_positions.getD i 0) ≠
          ((reg_positions.map (reg_distance start_position)).min?).getD 0) := by
  have hdne : reg_positions.map (reg_distance start_position) ≠ [] := by
    simpa [List.map_eq_nil_iff] using hne
  obtain ⟨j, hjlen, hfi, hgd, hfirst⟩ := first_min_index_spec _ hdne
  have hjlen' : j < reg_positions.length := by simpa using hjlen
  have hmap : ∀ i, i < reg_positions.length →
      (reg_positions.map (reg_distance start_position)).getD i 0 =
        reg_distance start_position (reg_positions.getD i 0) := by
    intro i hi
    rw [List.getD_eq_getElem?_getD, List.getD_eq_getElem?_getD,
      List.getElem?_eq_getElem (by simpa using hi), List.getElem?_eq_getElem hi]
    simp [List.getElem_map]
  refine ⟨j, hjlen', ?_, ?_, ?_, ?_⟩
  · simp only [closest_reg_position]
    rw [hfi]
    rfl
  · rw [← hmap j hjlen']
    exact hgd
  · intro q hq
    rw [← hmap j hjlen', hgd]
    obtain ⟨-, hminle⟩ := min?_getD_spec _ hdne
    exact hminle _ (List.mem_map_of_mem _ hq)
  · intro i hij
    have hi : i < reg_positions.length := lt_trans hij hjlen'
    rw [← hmap i hi]
    exact hfirst i hij

theorem candidates_some_orientation (genome : List GRow) (operon_orientation : String)
    (positions : List Nat) (x : Nat × List Nat)
    (h : regulator_candidates genome operon_orientation positions = some x) :
    operon_orientation = "+" ∨ operon_orientation = "-" := by
  by_contra hc
  push_neg at hc
  rw [regulator_candidates, if_neg hc.1, if_neg hc.2] at h
  exact absurd h (by simp)

/-- Forward-orientation candidate pool (lines 502-509): the reference is the
minimum member position; the pool holds exactly the regulator-like
reverse-strand rows on the reference row's sequence at an index at most the
reference, listed in ascending table order. -/
theorem candidates_plus_spec (genome : List GRow) (positions : List Nat)
    (start_position : Nat) (reg_positions : List Nat)
    (h : regulator_candidates genome "+" positions = some (start_position, reg_positions)) :
    start_position = (positions.min?).getD 0 ∧
    (∀ p, p ∈ reg_positions ↔ p < genome.length ∧ reg_like (rowAt genome p) = true ∧
      (rowAt genome p).strand = "-" ∧
      (rowAt genome p).seq_type = (rowAt genome start_position).seq_type ∧
      p ≤ start_position) ∧
    reg_positions.Pairwise (· < ·) := by
  rw [regulator_candidates, if_pos rfl] at h
  simp only [Option.some.injEq, Prod.mk.injEq] at h
  obtain ⟨h1, h2⟩ := h
  subst h2
  subst h1
  refine ⟨rfl, ?_, ?_⟩
  · intro p
    simp only [List.mem_filter, List.mem_range, Bool.and_eq_true, beq_iff_eq,
      decide_eq_true_eq]
    tauto
  · exact List.Pairwise.filter _ (List.Pairwise.filter _ (List.pairwise_lt_range _))

/-- Reverse-orientation candidate pool (lines 513-520): the reference is the
maximum member position; the pool holds exactly the regulator-like
forward-strand rows on the reference row's sequence at an index at least the
reference, in ascending table order. -/
theorem candidates_minus_spec (genome : List GRow) (positions : List Nat)
    (start_position : Nat) (reg_positions : List Nat)
    (h : regulator_candidates genome "-" positions = some (start_position, reg_positions)) :
    start_position = (positions.max?).getD 0 ∧
    (∀ p, p ∈ reg_positions ↔ p < genome.length ∧ reg_like (rowAt genome p) = true ∧
      (rowAt genome p).strand = "+" ∧
      (rowAt genome p).seq_type = (rowAt genome start_position).seq_type ∧
      start_position ≤ p) ∧
    reg_positions.Pairwise (· < ·) := by
  rw [regulator_candidates] at h
  rw [if_neg (by decide), if_pos rfl] at h
  simp only [Option.some.injEq, Prod.mk.injEq] at h
  obtain ⟨h1, h2⟩ := h
  subst h2
  subst h1
  refine ⟨rfl, ?_, ?_⟩
  · intro p
    simp only [List.mem_filter, List.mem_range, Bool.and_eq_true, beq_iff_eq,
      decide_eq_true_eq]
    tauto
  · exact List.Pairwise.filter _ (List.Pairwise.filter _ (List.pairwise_lt_range _))

/-- Unfolding `identify_regulator` when the candidate pool is non-empty: the
returned triple names the closest pool candidate's row and its intervening
score. -/
theorem identify_regulator_eq_of_pool (genome : List GRow) (operon : List String)
    (operon_orientation : String) (gene_positions : List (String × Nat))
    (start_position : Nat) (reg_positions : List Nat)
    (hcand : regulator_candidates genome operon_orientation
        (operon.map fun gene => ((gene_positions.lookup gene).getD 0)) =
      some (start_position, reg_positions)) (hne : reg_positions ≠ []) :
    identify_regulator genome operon operon_orientation gene_positions =
      (some ((rowAt genome (closest_reg_position reg_positions start_position)).locus_tag),
       intervening_score genome operon_orientation start_position
         (closest_reg_position reg_positions start_position)
         (((reg_positions.map (reg_distance start_position)).min?).getD 0),
       some ((rowAt genome (closest_reg_position reg_positions start_position)).name)) := by
  simp only [identify_regulator, hcand]
  rw [if_pos (by simpa [gt_iff_lt, List.length_pos] using hne)]

/-- Unfolding `identify_regulator` on the failure paths (orientation neither
`+` nor `-`, or an empty candidate pool): the triple of `None`s. -/
theorem identify_regulator_failure (genome : List GRow) (operon : List String)
    (operon_orientation : String) (gene_positions : List (String × Nat))
    (h : regulator_candidates genome operon_orientation
        (operon.map fun gene => ((gene_positions.lookup gene).getD 0)) = none ∨
      ∃ sp, regulator_candidates genome operon_orientation
        (operon.map fun gene => ((gene_positions.lookup gene).getD 0)) = some (sp, [])) :
    identify_regulator genome operon operon_orientation gene_positions =
      (none, none, none) := by
  rcases h with h | ⟨sp, h⟩ <;> simp [identify_regulator, h]

/-- With a sorted non-empty pool, `identify_regulator` returns the pool
candidate at minimum absolute distance from the reference, ties resolved by
the first (lowest row index) occurrence. -/
theorem identify_regulator_closest_spec (genome : List GRow) (operon : List String)
    (operon_orientation : String) (gene_positions : List (String × Nat))
    (start_position : Nat) (reg_positions : List Nat)
    (hcand : regulator_candidates genome operon_orientation
        (operon.map fun gene => ((gene_positions.lookup gene).getD 0)) =
      some (start_position, reg_positions))
    (hsort : reg_positions.Pairwise (· < ·)) (hne : reg_positions ≠ []) :
    closest_reg_position reg_positions start_position ∈ reg_positions ∧
    (∀ q ∈ reg_positions,
      reg_distance start_position (closest_reg_position reg_positions start_position) ≤
        reg_distance start_position q) ∧
    (∀ q ∈ reg_positions,
      reg_distance start_position q =
        reg_distance start_position (closest_reg_position reg_positions start_position) →
      closest_reg_position reg_positions start_position ≤ q) ∧
    (identify_regulator genome operon operon_orientation gene_positions).1 =
      some ((rowAt genome (closest_reg_position reg_positions start_position)).locus_tag) ∧
    (identify_regulator genome operon operon_orientation gene_positions).2.2 =
      some ((rowAt genome (closest_reg_position reg_positions start_position)).name) := by
  obtain ⟨j, hjlen, hsel, hdist, hminle, hfirst⟩ :=
    closest_reg_position_spec reg_positions start_position hne
  have hgd : reg_positions.getD j 0 = reg_positions[j] := by
    rw [List.getD_eq_getElem?_getD, List.getElem?_eq_getElem hjlen]
    rfl
  have hid := identify_regulator_eq_of_pool genome operon operon_orientation gene_positions
    start_position reg_positions hcand hne
  refine ⟨?_, ?_, ?_, ?_, ?_⟩
  · rw [hsel, hgd]
    exact List.getElem_mem hjlen
  · intro q hq
    rw [hsel]
    exact hminle q hq
  · intro q hq heq
    obtain ⟨i, hi, rfl⟩ := List.mem_iff_getElem.mp hq
    rcases lt_trichotomy i j with hij | rfl | hij
    · exfalso
      apply hfirst i hij
      have hgi : reg_positions.getD i 0 = reg_positions[i] := by
        rw [List.getD_eq_getElem?_getD, List.getElem?_eq_getElem hi]
        rfl
      rw [hgi, heq, hsel]
      exact hdist
    · rw [hsel, hgd]
    · have hlt := List.pairwise_iff_getElem.mp hsort j i hjlen hi hij
      rw [hsel, hgd]
      exact le_of_lt hlt
  · rw [hid]
  · rw [hid]

/-- C4: for a forward (`+`) operon orientation the reference position is the
minimum of the operon members' row positions (the maximum for `-`); the
candidate pool is exactly the rows whose annotation contains `regulator`,
`repressor` or `activator`, whose strand is opposite to the orientation,
whose `seq_type` equals the reference row's, and whose index is on the
upstream side of the reference; an empty pool yields the no-prediction
triple, and otherwise the returned regulator is the pool candidate at
minimum absolute row-index distance, ties resolved by the first occurrence
in table order. -/
theorem identify_regulator_selection (genome : List GRow) (operon : List String)
    (operon_orientation : String) (gene_positions : List (String × Nat))
    (hor : operon_orientation = "+" ∨ operon_orientation = "-") (hop : operon ≠ []) :
    ∃ start_position reg_positions,
      regulator_candidates genome operon_orientation
          (operon.map fun gene => ((gene_positions.lookup gene).getD 0)) =
        some (start_position, reg_positions) ∧
      (operon_orientation = "+" →
        (operon.map fun gene => ((gene_positions.lookup gene).getD 0)).min? =
            some start_position ∧
        ∀ p, p ∈ reg_positions ↔ p < genome.length ∧ reg_like (rowAt genome p) = true ∧
          (rowAt genome p).strand = "-" ∧
          (rowAt genome p).seq_type = (rowAt genome start_position).seq_type ∧
          p ≤ start_position) ∧
      (operon_orientation = "-" →
        (operon.map fun gene => ((gene_positions.lookup gene).getD 0)).max? =
            some start_position ∧
        ∀ p, p ∈ reg_positions ↔ p < genome.length ∧ reg_like (rowAt genome p) = true ∧
          (rowAt genome p).strand = "+" ∧
          (rowAt genome p).seq_type = (rowAt genome start_position).seq_type ∧
          start_position ≤ p) ∧
      (reg_positions = [] →
        identify_regulator genome operon operon_orientation gene_positions =
          (none, none, none)) ∧
      (reg_positions ≠ [] →
        closest_reg_position reg_positions start_position ∈ reg_positions ∧
        (∀ q ∈ reg_positions,
          reg_distance start_position (closest_reg_position reg_positions start_position) ≤
            reg_distance start_position q) ∧
        (∀ q ∈ reg_positions,
          reg_distance start_position q =
            reg_distance start_position (closest_reg_position reg_positions start_position) →
          closest_reg_position reg_positions start_position ≤ q) ∧
        (identify_regulator genome operon operon_orientation gene_positions).1 =
          some ((rowAt genome (closest_reg_position reg_positions start_position)).locus_tag) ∧
        (identify_regulator genome operon operon_orientation gene_positions).2.2 =
          some ((rowAt genome (closest_reg_position reg_positions start_position)).name)) := by
  have hmapne : (operon.map fun gene => ((gene_positions.lookup gene).getD 0)) ≠ [] := by
    simpa [List.map_eq_nil_iff] using hop
  rcases hor with ho | ho <;> subst ho
  · obtain ⟨sp, pool, hcand⟩ : ∃ sp pool,
        regulator_candidates genome "+" (operon.map fun gene =>
          ((gene_positions.lookup gene).getD 0)) = some (sp, pool) := by
      rw [regulator_candidates, if_pos rfl]
      exact ⟨_, _, rfl⟩
    obtain ⟨h1, h2, hsort⟩ := candidates_plus_spec genome _ sp pool hcand
    refine ⟨sp, pool, hcand, ?_, ?_, ?_, ?_⟩
    · intro _
      refine ⟨?_, h2⟩
      cases hmin : (operon.map fun gene => ((gene_positions.lookup gene).getD 0)).min? with
      | none => exact absurd (List.min?_eq_none_iff.mp hmin) hmapne
      | some m =>
        rw [hmin] at h1
        simp only [Option.getD_some] at h1
        rw [h1]
    · intro habs
      exact absurd habs (by decide)
    · intro hpool
      exact identify_regulator_failure genome operon "+" gene_positions
        (Or.inr ⟨sp, hpool ▸ hcand⟩)
    · intro hne
      exact identify_regulator_closest_spec genome operon "+" gene_positions sp pool
        hcand hsort hne
  · obtain ⟨sp, pool, hcand⟩ : ∃ sp pool,
        regulator_candidates genome "-" (operon.map fun gene =>
          ((gene_positions.lookup gene).getD 0)) = some (sp, pool) := by
      rw [regulator_candidates, if_neg (by decide), if_pos rfl]
      exact ⟨_, _, rfl⟩
    obtain ⟨h1, h2, hsort⟩ := candidates_minus_spec genome _ sp pool hcand
    refine ⟨sp, pool, hcand, ?_, ?_, ?_, ?_⟩
    · intro habs
      exact absurd habs (by decide)
    · intro _
      refine ⟨?_, h2⟩
      cases hmax : (operon.map fun gene => ((gene_positions.lookup gene).getD 0)).max? with
      | none =>
        rw [List.max?_eq_none_iff] at hmax
        exact absurd hmax hmapne
      | some m =>
        rw [hmax] at h1
        simp only [Option.getD_some] at h1
        rw [h1]
    · intro hpool
      exact identify_regulator_failure genome operon "-" gene_positions
        (Or.inr ⟨sp, hpool ▸ hcand⟩)
    · intro hne
      exact identify_regulator_closest_spec genome operon "-" gene_positions sp pool
        hcand hsort hne

theorem identify_regulator_selection_witness :
    (("+" : String) = "+" ∨ ("+" : String) = "-") ∧ ((["ga"] : List String) ≠ []) ∧
    (∃ start_position reg_positions,
      regulator_candidates genome_w7 "+"
          ((["ga"] : List String).map fun gene =>
            ((([("ga", 0)] : List (String × Nat)).lookup gene).getD 0)) =
        some (start_position, reg_positions) ∧
      (("+" : String) = "+" →
        ((["ga"] : List String).map fun gene =>
            ((([("ga", 0)] : List (String × Nat)).lookup gene).getD 0)).min? =
          some start_position ∧
        ∀ p, p ∈ reg_positions ↔ p < genome_w7.length ∧ reg_like (rowAt genome_w7 p) = true ∧
          (rowAt genome_w7 p).strand = "-" ∧
          (rowAt genome_w7 p).seq_type = (rowAt genome_w7 start_position).seq_type ∧
          p ≤ start_position) ∧
      (("+" : String) = "-" →
        ((["ga"] : List String).map fun gene =>
            ((([("ga", 0)] : List (String × Nat)).lookup gene).getD 0)).max? =
          some start_position ∧
        ∀ p, p ∈ reg_positions ↔ p < genome_w7.length ∧ reg_like (rowAt genome_w7 p) = true ∧
          (rowAt genome_w7 p).strand = "+" ∧
          (rowAt genome_w7 p).seq_type = (rowAt genome_w7 start_position).seq_type ∧
          start_position ≤ p) ∧
      (reg_positions = [] →
        identify_regulator genome_w7 ["ga"] "+" [("ga", 0)] = (none, none, none)) ∧
      (reg_positions ≠ [] →
        closest_reg_position reg_positions start_position ∈ reg_positions ∧
        (∀ q ∈ reg_positions,
          reg_distance start_position (closest_reg_position reg_positions start_position) ≤
            reg_distance start_position q) ∧
        (∀ q ∈ reg_positions,
          reg_distance start_position q =
            reg_distance start_position (closest_reg_position reg_positions start_position) →
          closest_reg_position reg_positions start_position ≤ q) ∧
        (identify_regulator genome_w7 ["ga"] "+" [("ga", 0)]).1 =
          some ((rowAt genome_w7 (closest_reg_position reg_positions start_position)).locus_tag) ∧
        (identify_regulator genome_w7 ["ga"] "+" [("ga", 0)]).2.2 =
          some ((rowAt genome_w7 (closest_reg_position reg_positions start_position)).name))) :=
  ⟨Or.inl rfl, by decide,
    identify_regulator_selection genome_w7 ["ga"] "+" [("ga", 0)] (Or.inl rfl) (by decide)⟩

/-- The scoring loop of lines 552-557/562-567 -- repeated subtraction of 2 or
1 from a running score -- equals the negative sum of the per-row penalties. -/
theorem foldl_penalty_eq_sum (C : Nat → Prop) [DecidablePred C] :
    ∀ (l : List Nat) (c : Int),
      l.foldl (fun score n => if C n then score - 2 else score - 1) c =
        c + (l.map (fun n => if C n then (-2 : Int) else -1)).sum := by
  intro l
  induction l with
  | nil => intro c; simp
  | cons a l ih =>
    intro c
    simp only [List.foldl_cons, List.map_cons, List.sum_cons]
    rw [ih]
    by_cases h : C a <;> simp [h] <;> ring

/-- C3: for the selected regulator (when distinct from the reference), the
returned score is 0 at row-index distance exactly 1, and otherwise equals
the sum, over every row strictly between the regulator and the reference, of
-2 when that row's strand differs from the operon orientation and -1 when it
matches -- the directional walks of lines 551-567 (from the reference forward
for a downstream regulator, from the regulator's own position forward for an
upstream one) both visit exactly those rows. -/
theorem identify_regulator_score_formula (genome : List GRow) (operon : List String)
    (operon_orientation : String) (gene_positions : List (String × Nat))
    (start_position : Nat) (reg_positions : List Nat)
    (hcand : regulator_candidates genome operon_orientation
        (operon.map fun gene => ((gene_positions.lookup gene).getD 0)) =
      some (start_position, reg_positions))
    (hne : reg_positions ≠ [])
    (hneq : closest_reg_position reg_positions start_position ≠ start_position) :
    (identify_regulator genome operon operon_orientation gene_positions).2.1 =
      some (if reg_distance start_position
          (closest_reg_position reg_positions start_position) = 1 then 0
        else ((List.range'
            (min (closest_reg_position reg_positions start_position) start_position + 1)
            (max (closest_reg_position reg_positions start_position) start_position -
              min (closest_reg_position reg_positions start_position) start_position - 1)).map
          (fun i => if (rowAt genome i).strand ≠ operon_orientation then (-2 : Int) else -1)).sum) := by
  obtain ⟨j, hjlen, hsel, hdist, hminle, hfirst⟩ :=
    closest_reg_position_spec reg_positions start_position hne
  have hid := identify_regulator_eq_of_pool genome operon operon_orientation gene_positions
    start_position reg_positions hcand hne
  rw [hid]
  have hmd : ((reg_positions.map (reg_distance start_position)).min?).getD 0 =
      reg_distance start_position (closest_reg_position reg_positions start_position) := by
    rw [hsel]
    exact hdist.symm
  show intervening_score genome operon_orientation start_position
      (closest_reg_position reg_positions start_position)
      (((reg_positions.map (reg_distance start_position)).min?).getD 0) = _
  rw [hmd]
  set p := closest_reg_position reg_positions start_position with hp
  by_cases h1 : reg_distance start_position p = 1
  · rw [intervening_score, if_pos h1, if_pos h1]
  · rcases Nat.lt_trichotomy p start_position with hlt | heq | hgt
    · have hd : reg_distance start_position p = start_position - p := by
        unfold reg_distance
        omega
      rw [intervening_score, if_neg h1, if_neg (by omega), if_pos hlt, if_neg h1]
      rw [foldl_penalty_eq_sum (fun n => (rowAt genome (p + n)).strand ≠ operon_orientation)]
      have hmin : min p start_position = p := by omega
      have hmax : max p start_position = start_position := by omega
      rw [hmin, hmax]
      have hrange : List.range' (p + 1) (start_position - p - 1) =
          (List.range' 1 (start_position - p - 1)).map (fun x => p + x) :=
        (List.map_add_range' p 1 (start_position - p - 1) 1).symm
      rw [hd, hrange, List.map_map]
      simp [Function.comp_def]
    · exact absurd heq hneq
    · have hd : reg_distance start_position p = p - start_position := by
        unfold reg_distance
        omega
      rw [intervening_score, if_neg h1, if_pos hgt, if_neg h1]
      rw [foldl_penalty_eq_sum
        (fun n => (rowAt genome (start_position + n)).strand ≠ operon_orientation)]
      have hmin : min p start_position = start_position := by omega
      have hmax : max p start_position = p := by omega
      rw [hmin, hmax]
      have hrange : List.range' (start_position + 1) (p - start_position - 1) =
          (List.range' 1 (p - start_position - 1)).map (fun x => start_position + x) :=
        (List.map_add_range' start_position 1 (p - start_position - 1) 1).symm
      rw [hd, hrange, List.map_map]
      simp [Function.comp_def]

theorem identify_regulator_score_formula_witness :
    regulator_candidates genome_w3 "+"
        ((["g1"] : List String).map fun gene =>
          ((([("g1", 100)] : List (String × Nat)).lookup gene).getD 0)) = some (100, [90]) ∧
    (([90] : List Nat) ≠ []) ∧
    closest_reg_position [90] 100 ≠ 100 ∧
    ((identify_regulator genome_w3 ["g1"] "+" [("g1", 100)]).2.1 =
      some (if reg_distance 100 (closest_reg_position [90] 100) = 1 then 0
        else ((List.range' (min (closest_reg_position [90] 100) 100 + 1)
            (max (closest_reg_position [90] 100) 100 -
              min (closest_reg_position [90] 100) 100 - 1)).map
          (fun i => if (rowAt genome_w3 i).strand ≠ "+" then (-2 : Int) else -1)).sum)) ∧
    (identify_regulator genome_w3 ["g1"] "+" [("g1", 100)]).2.1 = some (-9) := by
  refine ⟨?_, ?_, ?_, ?_, ?_⟩
  · decide
  · decide
  · decide
  · exact identify_regulator_score_formula genome_w3 ["g1"] "+" [("g1", 100)] 100 [90]
      (by decide) (by decide) (by decide)
  · decide

/-- C10: when the reference row carries the operon orientation (which the
call sites guarantee, since every operon member's row shares the starting
gene's strand), every pool candidate sits on the opposite strand, so the
selected regulator's position differs from the reference, the
`score = None` branch of line 570 is unreachable, and `identify_regulator`
returns either three `none`s or three `some`s, never a mixed triple. -/
theorem identify_regulator_no_mixed_triple (genome : List GRow) (operon : List String)
    (operon_orientation : String) (gene_positions : List (String × Nat))
    (href : ∀ start_position reg_positions,
      regulator_candidates genome operon_orientation
          (operon.map fun gene => ((gene_positions.lookup gene).getD 0)) =
        some (start_position, reg_positions) →
      (rowAt genome start_position).strand = operon_orientation) :
    identify_regulator genome operon operon_orientation gene_positions = (none, none, none) ∨
    ∃ r s a, identify_regulator genome operon operon_orientation gene_positions =
      (some r, some s, some a) := by
  cases hcand : regulator_candidates genome operon_orientation
      (operon.map fun gene => ((gene_positions.lookup gene).getD 0)) with
  | none =>
    exact Or.inl (identify_regulator_failure _ _ _ _ (Or.inl hcand))
  | some x =>
    obtain ⟨sp, pool⟩ := x
    by_cases hpool : pool = []
    · subst hpool
      exact Or.inl (identify_regulator_failure _ _ _ _ (Or.inr ⟨sp, hcand⟩))
    · right
      have hstrand := href sp pool hcand
      obtain ⟨j, hjlen, hsel, -, -, -⟩ := closest_reg_position_spec pool sp hpool
      have hmem : closest_reg_position pool sp ∈ pool := by
        rw [hsel, List.getD_eq_getElem?_getD, List.getElem?_eq_getElem hjlen]
        exact List.getElem_mem hjlen
      have hps : closest_reg_position pool sp ≠ sp := by
        rcases candidates_some_orientation _ _ _ _ hcand with ho | ho <;> subst ho
        · obtain ⟨-, hchar, -⟩ := candidates_plus_spec genome _ sp pool hcand
          intro heq
          have hopp := ((hchar _).mp hmem).2.2.1
          rw [heq, hstrand] at hopp
          exact absurd hopp (by decide)
        · obtain ⟨-, hchar, -⟩ := candidates_minus_spec genome _ sp pool hcand
          intro heq
          have hopp := ((hchar _).mp hmem).2.2.1
          rw [heq, hstrand] at hopp
          exact absurd hopp (by decide)
      have hid := identify_regulator_eq_of_pool genome operon operon_orientation
        gene_positions sp pool hcand hpool
      have hscore : ∃ s, intervening_score genome operon_orientation sp
          (closest_reg_position pool sp)
          (((pool.map (reg_distance sp)).min?).getD 0) = some s := by
        by_cases hd1 : reg_distance sp (closest_reg_position pool sp) = 1
        · exact ⟨0, by rw [intervening_score, if_pos hd1]⟩
        · rcases Nat.lt_trichotomy (closest_reg_position pool sp) sp with hlt | heq | hgt
          · exact ⟨_, by rw [intervening_score, if_neg hd1, if_neg (by omega), if_pos hlt]⟩
          · exact absurd heq hps
          · exact ⟨_, by rw [intervening_score, if_neg hd1, if_pos hgt]⟩
      obtain ⟨s, hs⟩ := hscore
      exact ⟨_, s, _, by rw [hid, hs]⟩

theorem identify_regulator_no_mixed_triple_witness :
    (∀ start_position reg_positions,
      regulator_candidates genome_w3 "+"
          ((["g1"] : List String).map fun gene =>
            ((([("g1", 100)] : List (String × Nat)).lookup gene).getD 0)) =
        some (start_position, reg_positions) →
      (rowAt genome_w3 start_position).strand = "+") ∧
    (identify_regulator genome_w3 ["g1"] "+" [("g1", 100)] = (none, none, none) ∨
      ∃ r s a, identify_regulator genome_w3 ["g1"] "+" [("g1", 100)] =
        (some r, some s, some a)) := by
  have href : ∀ start_position reg_positions,
      regulator_candidates genome_w3 "+"
          ((["g1"] : List String).map fun gene =>
            ((([("g1", 100)] : List (String × Nat)).lookup gene).getD 0)) =
        some (start_position, reg_positions) →
      (rowAt genome_w3 start_position).strand = "+" := by
    intro start_position reg_positions h
    rw [(by decide : regulator_candidates genome_w3 "+"
        ((["g1"] : List String).map fun gene =>
          ((([("g1", 100)] : List (String × Nat)).lookup gene).getD 0)) =
      some (100, [90]))] at h
    injection h with h'
    cases h'
    decide
  exact ⟨href, identify_regulator_no_mixed_triple genome_w3 ["g1"] "+" [("g1", 100)] href⟩

/-! ### Facts about chain discovery -/

theorem foldl_mem_or {α β : Type} (f : List β → α → List β) (P : β → Prop)
    (hstep : ∀ b a, ∀ c ∈ f b a, c ∈ b ∨ P c) :
    ∀ (l : List α) (b : List β), ∀ c ∈ l.foldl f b, c ∈ b ∨ P c := by
  intro l
  induction l with
  | nil => intro b c hc; exact Or.inl hc
  | cons a l ih =>
    intro b c hc
    rcases ih (f b a) c hc with h | h
    · exact hstep b a c h
    · exact Or.inr h

/-- The invariant of the `link_reactions` recursion: chains handed down as
`prior_chains` to a call at a given depth have that depth as their length
and hold no wildcard enzyme; every chain the call appends to the accumulator
then has length between 2 and `max 2 limit` and holds no wildcard enzyme. -/
theorem link_reactions_mem (env : Env) (limit : Nat) :
    ∀ (n recursion_depth : Nat) (reaction compound : String)
      (prior_chains : Option (List (List String))) (prior_enzymes : Option (List String))
      (all_chains : List (List String)),
      (limit + 2) - recursion_depth ≤ n →
      (recursion_depth = 0 ∨ recursion_depth = 1 ∨ recursion_depth < limit) →
      (∀ c ∈ prior_chains.getD [], c.length = recursion_depth ∧
        ∀ e ∈ c, e.data.contains '-' = false) →
      ∀ c ∈ link_reactions env reaction compound recursion_depth prior_chains prior_enzymes
          limit all_chains,
        c ∈ all_chains ∨
          ((2 ≤ c.length ∧ c.length ≤ max 2 limit) ∧ ∀ e ∈ c, e.data.contains '-' = false) := by
  intro n
  induction n with
  | zero =>
    intro d r compound pc pe acc hle hd _ c _
    exfalso
    omega
  | succ m ih =>
    intro d reaction compound pc pe acc hle hd hpc c hc
    rw [link_reactions] at hc
    cases hrd : env.reaction_details reaction with
    | none =>
      rw [hrd] at hc
      exact Or.inl hc
    | some trip =>
      obtain ⟨enzymes, reactants, products⟩ := trip
      rw [hrd] at hc
      dsimp only at hc
      by_cases hcin : compound ∈ reactants
      · rw [if_pos hcin] at hc
        set chains_ : Option (List (List String)) :=
          (if d = 1 ∧ pe.isSome = true then
            some ((List.filter (fun enzyme_1 => !enzyme_1.data.contains '-') (pe.getD [])).flatMap
              fun enzyme_1 => List.map (fun enzyme_2 => [enzyme_1, enzyme_2])
                (List.filter (fun enzyme_2 => !enzyme_2.data.contains '-') enzymes))
          else
            if 1 < d ∧ pc.isSome = true then
              some ((List.filter (fun e => !e.data.contains '-') enzymes).flatMap
                fun e => List.map (fun chain => chain ++ [e]) (pc.getD []))
            else none) with hch
        have hchinv : ∀ c' ∈ chains_.getD [], (1 ≤ d ∧ c'.length = d + 1) ∧
            ∀ e ∈ c', e.data.contains '-' = false := by
          rw [hch]
          by_cases h1 : d = 1 ∧ pe.isSome = true
          · rw [if_pos h1]
            intro c' hc'
            simp only [Option.getD_some, List.mem_flatMap, List.mem_map,
              List.mem_filter] at hc'
            obtain ⟨e1, ⟨-, he1ok⟩, e2, ⟨-, he2ok⟩, rfl⟩ := hc'
            refine ⟨⟨by omega, by simp [h1.1]⟩, ?_⟩
            intro e he
            rcases List.mem_cons.mp he with rfl | he
            · simpa using he1ok
            · rcases List.mem_cons.mp he with rfl | he
              · simpa using he2ok
              · simp at he
          · rw [if_neg h1]
            by_cases h2 : 1 < d ∧ pc.isSome = true
            · rw [if_pos h2]
              intro c' hc'
              simp only [Option.getD_some, List.mem_flatMap, List.mem_map,
                List.mem_filter] at hc'
              obtain ⟨e, ⟨-, heok⟩, ch, hchmem, rfl⟩ := hc'
              obtain ⟨hlen, hwf⟩ := hpc ch hchmem
              refine ⟨⟨by omega, by simp [hlen]⟩, ?_⟩
              intro x hx
              rcases List.mem_append.mp hx with hx | hx
              · exact hwf x hx
              · rcases List.mem_singleton.mp hx with rfl
                simpa using heok
            · rw [if_neg h2]
              intro c' hc'
              simp at hc'
        have hchgood : ∀ c' ∈ chains_.getD [],
            (2 ≤ c'.length ∧ c'.length ≤ max 2 limit) ∧
              ∀ e ∈ c', e.data.contains '-' = false := by
          intro c' hc'
          obtain ⟨⟨hd1, hlen⟩, hwf⟩ := hchinv c' hc'
          have h2m : 2 ≤ max 2 limit := le_max_left _ _
          have hlm : limit ≤ max 2 limit := le_max_right _ _
          refine ⟨⟨by omega, ?_⟩, hwf⟩
          rcases hd with rfl | rfl | hdlt
          · omega
          · omega
          · omega
        have histep : ∀ (product : String) (b2 : List (List String)) (reaction_2 : String),
            ∀ c2 ∈ (if h1 : d + 1 = 1 then
                link_reactions env reaction_2 product (d + 1) none (some enzymes) limit b2
              else if h2 : 1 < d + 1 ∧ d + 1 < limit then
                link_reactions env reaction_2 product (d + 1) chains_ none limit b2
              else b2),
            c2 ∈ b2 ∨ ((2 ≤ c2.length ∧ c2.length ≤ max 2 limit) ∧
              ∀ e ∈ c2, e.data.contains '-' = false) := by
          intro product b2 reaction_2 c2 hc2
          by_cases h1 : d + 1 = 1
          · rw [dif_pos h1] at hc2
            exact ih (d + 1) reaction_2 product none (some enzymes) b2
              (by omega) (by omega) (by intro x hx; simp at hx) c2 hc2
          · rw [dif_neg h1] at hc2
            by_cases h2 : 1 < d + 1 ∧ d + 1 < limit
            · rw [dif_pos h2] at hc2
              exact ih (d + 1) reaction_2 product chains_ none b2
                (by omega) (by omega)
                (fun x hx => ⟨(hchinv x hx).1.2, (hchinv x hx).2⟩) c2 hc2
            · rw [dif_neg h2] at hc2
              exact Or.inl hc2
        have hstep : ∀ (b : List (List String)) (product : String),
            ∀ c' ∈ (if product ∈ excluded_compounds then b
              else if (env.identify_reactions product).length < 100 then
                List.foldl (fun acc2 reaction_2 =>
                  if h1 : d + 1 = 1 then
                    link_reactions env reaction_2 product (d + 1) none (some enzymes) limit acc2
                  else if h2 : 1 < d + 1 ∧ d + 1 < limit then
                    link_reactions env reaction_2 product (d + 1) chains_ none limit acc2
                  else acc2) b (env.identify_reactions product)
              else b),
            c' ∈ b ∨ ((2 ≤ c'.length ∧ c'.length ≤ max 2 limit) ∧
              ∀ e ∈ c', e.data.contains '-' = false) := by
          intro b product c' hc'
          by_cases hexc : product ∈ excluded_compounds
          · rw [if_pos hexc] at hc'
            exact Or.inl hc'
          · rw [if_neg hexc] at hc'
            by_cases hover : (env.identify_reactions product).length < 100
            · rw [if_pos hover] at hc'
              exact foldl_mem_or _ _ (histep product) (env.identify_reactions product) b c' hc'
            · rw [if_neg hover] at hc'
              exact Or.inl hc'
        rcases foldl_mem_or _ _ hstep products (acc ++ chains_.getD []) c hc with hmem | hgood
        · rcases List.mem_append.mp hmem with h | h
          · exact Or.inl h
          · exact Or.inr (hchgood c h)
        · exact Or.inr hgood
      · rw [if_neg hcin] at hc
        exact Or.inl hc

theorem form_chains_mem (env : Env) (reactions : List String) (inducer : String)
    (max_chain_length : Nat) :
    ∀ c ∈ form_chains env reactions inducer max_chain_length,
      (2 ≤ c.length ∧ c.length ≤ max 2 max_chain_length) ∧
        ∀ e ∈ c, e.data.contains '-' = false := by
  intro c hc
  unfold form_chains at hc
  have hstep : ∀ (b : List (List String)) (reaction : String),
      ∀ c' ∈ link_reactions env reaction inducer 0 none none max_chain_length b,
        c' ∈ b ∨ ((2 ≤ c'.length ∧ c'.length ≤ max 2 max_chain_length) ∧
          ∀ e ∈ c', e.data.contains '-' = false) :=
    fun b reaction c' hc' =>
      link_reactions_mem env max_chain_length (max_chain_length + 2) 0 reaction inducer
        none none b (by omega) (Or.inl rfl) (by intro x hx; simp at hx) c' hc'
  rcases foldl_mem_or _ _ hstep reactions [] c hc with h | h
  · simp at h
  · exact h

theorem foldl_dedup_mem : ∀ (result acc : List (List String)), ∀ c ∈
    result.foldl (fun a chain => if chain ∈ a then a else a ++ [chain]) acc,
    c ∈ acc ∨ c ∈ result := by
  intro result
  induction result with
  | nil => intro acc c h; exact Or.inl h
  | cons ch rest ih =>
    intro acc c h
    rcases ih _ c h with h' | h'
    · dsimp only at h'
      by_cases hm : ch ∈ acc
      · rw [if_pos hm] at h'
        exact Or.inl h'
      · rw [if_neg hm] at h'
        rcases List.mem_append.mp h' with h'' | h''
        · exact Or.inl h''
        · rcases List.mem_singleton.mp h'' with rfl
          exact Or.inr (List.mem_cons_self _ _)
    · exact Or.inr (List.mem_cons_of_mem _ h')

theorem foldl_dedup_nodup : ∀ (result acc : List (List String)), acc.Nodup →
    (result.foldl (fun a chain => if chain ∈ a then a else a ++ [chain]) acc).Nodup := by
  intro result
  induction result with
  | nil => intro acc h; exact h
  | cons ch rest ih =>
    intro acc h
    apply ih
    dsimp only
    by_cases hm : ch ∈ acc
    · rw [if_pos hm]
      exact h
    · rw [if_neg hm]
      rw [List.nodup_append]
      refine ⟨h, List.nodup_singleton _, ?_⟩
      intro x hx hx'
      rcases List.mem_singleton.mp hx' with rfl
      exact hm hx

theorem dedup_append_mem (chains_all result : List (List String)) :
    ∀ c ∈ dedup_append chains_all result, c ∈ chains_all ∨ c ∈ result :=
  foldl_dedup_mem result chains_all

theorem dedup_append_nodup (chains_all result : List (List String))
    (h : chains_all.Nodup) : (dedup_append chains_all result).Nodup :=
  foldl_dedup_nodup result chains_all h

theorem foldl_preserve {α β : Type} (f : β → α → β) (P : β → Prop)
    (hstep : ∀ b a, P b → P (f b a)) :
    ∀ (l : List α) (b : β), P b → P (l.foldl f b) := by
  intro l
  induction l with
  | nil => intro b h; exact h
  | cons a l ih => intro b h; exact ih (f b a) (hstep b a h)

theorem ite_ok_error_ok {ε α : Type} {c : Prop} [Decidable c] {a b : α} {e : ε}
    (h : (if c then Except.ok a else Except.error e) = Except.ok b) : b = a := by
  split at h
  · injection h with h'
    exact h'.symm
  · exact absurd h (by simp)

/-- Every successful outcome of `optimize_chain_identifications` is a
duplicate-free list of chains, each of length between 2 and
`max 2 max_chain_length` and free of wildcard enzymes -- on the
multiprocessing path and on the sequential path alike. -/
theorem optimize_ok_spec (env : Env) (cores : Nat) (inducer : String) (L : Nat)
    (chains : List (List String))
    (h : optimize_chain_identifications env cores inducer L = .ok chains) :
    chains.Nodup ∧ ∀ c ∈ chains, (2 ≤ c.length ∧ c.length ≤ max 2 L) ∧
      ∀ e ∈ c, e.data.contains '-' = false := by
  simp only [optimize_chain_identifications] at h
  have hchains := ite_ok_error_ok h
  cases hop : (if (env.identify_reactions inducer).length ≥ cores then some cores
      else if (env.identify_reactions inducer).length ≥ 2 then some 2
      else if (env.identify_reactions inducer).length = 1 then some 1 else none) with
  | none =>
    rw [hop] at hchains
    dsimp only at hchains
    subst hchains
    simp
  | some p =>
    rw [hop] at hchains
    dsimp only at hchains
    by_cases hp : p ≥ 2
    · rw [if_pos hp] at hchains
      subst hchains
      constructor
      · exact foldl_preserve _ _ (fun b a hb => dedup_append_nodup _ _ hb)
          (array_split (env.identify_reactions inducer) p) [] List.nodup_nil
      · intro c hc
        rcases foldl_mem_or _
            (fun c => (2 ≤ c.length ∧ c.length ≤ max 2 L) ∧
              ∀ e ∈ c, e.data.contains '-' = false)
            (fun b a c' hc' => (dedup_append_mem b _ c' hc').imp id
              (fun hf => form_chains_mem env a inducer L c' hf))
            (array_split (env.identify_reactions inducer) p) [] c hc with h' | h'
        · simp at h'
        · exact h'
    · rw [if_neg hp] at hchains
      subst hchains
      constructor
      · exact dedup_append_nodup _ _ List.nodup_nil
      · intro c hc
        rcases dedup_append_mem _ _ c hc with h' | h'
        · simp at h'
        · exact form_chains_mem env _ inducer L c h'

theorem env_w1_eval : optimize_chain_identifications env_w1 1 "C00042" 2 =
    .ok [["EC:1.1.1.1", "EC:2.2.2.2"]] := by
  simp [optimize_chain_identifications, form_chains, dedup_append, link_reactions,
    env_w1, excluded_compounds]

/-- C1: for every inducer and every `max_chain_length ≥ 2`, every chain in
the merged result of chain discovery is a sequence of at least 2 and at most
`max_chain_length` enzyme identifiers, and the merged result holds no two
structurally equal chains. -/
theorem optimize_chains_bounds_nodup (env : Env) (cores : Nat) (inducer : String)
    (max_chain_length : Nat) (hL : 2 ≤ max_chain_length) (chains : List (List String))
    (h : optimize_chain_identifications env cores inducer max_chain_length = .ok chains) :
    chains.Nodup ∧ ∀ c ∈ chains, 2 ≤ c.length ∧ c.length ≤ max_chain_length := by
  obtain ⟨hnd, hmem⟩ := optimize_ok_spec env cores inducer max_chain_length chains h
  refine ⟨hnd, fun c hc => ?_⟩
  obtain ⟨⟨h2, hle⟩, -⟩ := hmem c hc
  rw [Nat.max_eq_right hL] at hle
  exact ⟨h2, hle⟩

theorem optimize_chains_bounds_nodup_witness :
    (2 ≤ 2) ∧
    optimize_chain_identifications env_w1 1 "C00042" 2 =
      .ok [["EC:1.1.1.1", "EC:2.2.2.2"]] ∧
    (([["EC:1.1.1.1", "EC:2.2.2.2"]] : List (List String)).Nodup ∧
      ∀ c ∈ ([["EC:1.1.1.1", "EC:2.2.2.2"]] : List (List String)),
        2 ≤ c.length ∧ c.length ≤ 2) :=
  ⟨by omega, env_w1_eval,
    optimize_chains_bounds_nodup env_w1 1 "C00042" 2 (by omega) _ env_w1_eval⟩

/-- C9: no chain in the discovery result contains a wildcard-flagged enzyme
(an identifier containing `-`): wildcards are excluded both from the depth-1
pairings and from every extension of a prior chain, so in fact no chain
holds one at all -- which in particular permits none except non-extending
dead ends, as the claim states. -/
theorem optimize_chains_no_wildcard (env : Env) (cores : Nat) (inducer : String)
    (max_chain_length : Nat) (chains : List (List String))
    (h : optimize_chain_identifications env cores inducer max_chain_length = .ok chains) :
    ∀ c ∈ chains, ∀ e ∈ c, e.data.contains '-' = false :=
  fun c hc => ((optimize_ok_spec env cores inducer max_chain_length chains h).2 c hc).2

theorem optimize_chains_no_wildcard_witness :
    optimize_chain_identifications env_w1 1 "C00042" 2 =
      .ok [["EC:1.1.1.1", "EC:2.2.2.2"]] ∧
    ∀ c ∈ ([["EC:1.1.1.1", "EC:2.2.2.2"]] : List (List String)),
      ∀ e ∈ c, e.data.contains '-' = false :=
  ⟨env_w1_eval, optimize_chains_no_wildcard env_w1 1 "C00042" 2 _ env_w1_eval⟩
